import Mathlib

/-!
Verification development for `build.py`, a thin CLI wrapper that sequences
external commands (gclient / git / build scripts) for fetching and building
the webrtc-android library.

The embedding is a shallow state-passing model of the script:
* `St` records the observable effects: log-file entries, lines printed to
  standard output, the process environment, and the list of subprocess
  invocations issued so far (each with the argument list, working directory
  and the environment snapshot passed to it).
* External command outcomes are an input to the model: an `Oracle` gives,
  for the i-th command attempted in a run, either success (`none`) or a
  failure value (`some e`, covering both a non-zero exit and a launch
  failure), plus the raw bytes the subprocess wrote into the log file.
* Python exception propagation is modelled with `Except`: `run_command`
  re-raises the failure value unmodified, and the `do`-chains in
  `run_fetch` / `run_build` propagate it, skipping the remaining commands.
-/

/-- The process environment, as an association list (`os.environ`).
Lookup is first-match; the caller's environment has distinct keys. -/
abbrev Env := List (String × String)

/-- First-match lookup in an environment (dictionary lookup). -/
def envLookup (k : String) : Env → Option String
  | [] => none
  | (k', v) :: rest => if k' = k then some v else envLookup k rest

/-- `os.environ.setdefault k v`: if `k` is present the environment is
unchanged, otherwise `(k, v)` is added. -/
def setdefault (env : Env) (k v : String) : Env :=
  match envLookup k env with
  | some _ => env
  | none => env ++ [(k, v)]

/-- One subprocess invocation: the argument list, the working directory,
and the environment snapshot handed to the subprocess
(`env=os.environ.copy()` in `run_command`). -/
structure Invocation where
  args : List String
  cwd : String
  env : Env
deriving Repr, DecidableEq

/-- One chunk appended to the log file: either a line written by the
wrapper via `log` (stored without its trailing newline), or raw output a
subprocess wrote into the file (its stdout/stderr are redirected there). -/
inductive Entry where
  | line (s : String)
  | output (s : String)
deriving Repr, DecidableEq

/-- The literal file text of a list of log entries: a `line` contributes
the message plus a newline, an `output` chunk contributes its raw bytes. -/
def fileText (es : List Entry) : String :=
  es.foldl (fun acc e => match e with
    | Entry.line s => acc ++ s ++ "\n"
    | Entry.output s => acc ++ s) ""

/-- Observable state of one run of the script. -/
structure St where
  entries : List Entry
  stdout : List String
  env : Env
  invoked : List Invocation
deriving Repr, DecidableEq

/-- Outcomes of the external world: for the i-th command attempted in a
run, `result i` is `none` on success and `some e` on failure (`e` is the
exception value: non-zero exit or launch failure), and `out i` is whatever
the subprocess wrote into the log file before terminating. -/
structure Oracle where
  result : Nat → Option String
  out : Nat → String

/-- `log(message, logfile)`: print the message to standard output and
append it, with a newline, to the log file. -/
def log (message : String) (st : St) : St :=
  { st with entries := st.entries ++ [Entry.line message],
            stdout := st.stdout ++ [message] }

/-- The descriptive line `run_command` logs before launching a command.
The callers in this script always pass an explicit working directory,
so the `cwd is None` fallback of the source never triggers. -/
def descLine (args : List String) (cwd : String) : String :=
  "Running \x27" ++ String.intercalate " " args ++ "\x27 in \x27" ++ cwd ++ "\x27"

/-- `run_command(args, logfile, cwd)`: log the descriptive line, launch the
subprocess (recording the invocation with the current environment snapshot;
its output goes into the log file), and on failure log the fixed marker
line and re-raise the failure value unmodified. -/
def run_command (ora : Oracle) (args : List String) (cwd : String) (st : St) :
    Except (String × St) St :=
  let st1 := log (descLine args cwd) st
  let st2 := { st1 with
    invoked := st1.invoked ++ [⟨args, cwd, st1.env⟩],
    entries := st1.entries ++ [Entry.output (ora.out st1.invoked.length)] }
  match ora.result st1.invoked.length with
  | none => Except.ok st2
  | some e => Except.error (e, log "Command failed." st2)

/-- `ROOT = "src"`. -/
def ROOT : String := "src"

/-- The fixed gclient spec string (`GCLIENT_SPEC` in the source). -/
def GCLIENT_SPEC : String :=
  "solutions = [\n  \x7b\n    \"name\": \"src\",\n    \"url\": \"https://webrtc.googlesource.com/src.git\",\n    \"deps_file\": \"DEPS\",\n    \"managed\": False,\n    \"custom_deps\": \x7b\x7d,\n  \x7d,\n]\ntarget_os = [\"android\", \"unix\"]\n"

/-- `os.path.join(a, b)` for the uses in this script (`b` is `"src"`). -/
def joinPath (a b : String) : String :=
  if b.startsWith "/" then b
  else if a = "" then b
  else if a.endsWith "/" then a ++ b
  else a ++ "/" ++ b

/-- Options of the `fetch` subcommand. -/
structure FetchOptions where
  dir : String
  revision : Option String
  history : Bool
deriving Repr, DecidableEq

/-- Options of the `build` subcommand. -/
structure BuildOptions where
  dir : String
  official : Bool
  unstripped : Bool
deriving Repr, DecidableEq

/-- The full argument list of the `gclient sync` command, with the
flag-derived options exactly as `run_fetch` builds them. -/
def syncArgs (opts : FetchOptions) : List String :=
  ["gclient", "sync", "--delete_unversioned_trees", "--nohooks"]
    ++ (if opts.history then [] else ["--no-history"])
    ++ (match opts.revision with
        | none => []
        | some r => ["--revision", ROOT ++ "@" ++ r])

/-- The eight environment defaults `run_fetch` sets via
`os.environ.setdefault`, in source order. -/
def envDefaults : List (String × String) :=
  [("DEBIAN_FRONTEND", "noninteractive"),
   ("DEBIAN_PRIORITY", "critical"),
   ("DEBCONF_NONINTERACTIVE_SEEN", "true"),
   ("APT_LISTCHANGES_FRONTEND", "none"),
   ("TZ", "Etc/UTC"),
   ("LANG", "C.UTF-8"),
   ("LC_ALL", "C.UTF-8"),
   ("LANGUAGE", "C.UTF-8")]

/-- The sequence of `os.environ.setdefault` calls in `run_fetch`,
applied in source order. -/
def applyEnvDefaults (env : Env) : Env :=
  envDefaults.foldl (fun e kv => setdefault e kv.1 kv.2) env

/-- `run_fetch(opts, logfile)`. -/
def run_fetch (ora : Oracle) (opts : FetchOptions) (st : St) :
    Except (String × St) St := do
  let st ← run_command ora ["gclient", "root"] opts.dir st
  let st ← run_command ora ["gclient", "config", "--spec", GCLIENT_SPEC] opts.dir st
  let st ← run_command ora (syncArgs opts) opts.dir st
  let st ← run_command ora ["git", "config", "diff.ignoreSubmodules", "dirty"]
      (joinPath opts.dir ROOT) st
  let st := { st with env := applyEnvDefaults st.env }
  let st ← run_command ora ["./build/install-build-deps.sh"] (joinPath opts.dir ROOT) st
  run_command ora ["gclient", "runhooks"] opts.dir st

/-- The full argument list of the build command, with the conditionally
appended flags exactly as `run_build` builds them. -/
def buildArgs (opts : BuildOptions) : List String :=
  ["./tools_webrtc/android/build_aar.py"]
    ++ (if opts.official then ["--extra-gn-args=is_official_build=true"] else [])
    ++ (if opts.unstripped then ["--use-unstripped-libs"] else [])

/-- `run_build(opts, logfile)`. -/
def run_build (ora : Oracle) (opts : BuildOptions) (st : St) :
    Except (String × St) St :=
  run_command ora (buildArgs opts) (joinPath opts.dir ROOT) st

/-- The selected action (`fetch` or `build` subcommand). -/
inductive Subcommand where
  | fetch (opts : FetchOptions)
  | build (opts : BuildOptions)

/-- Dispatch to the selected action (`args.func(args, logfile)`). -/
def runAction (ora : Oracle) (a : Subcommand) (st : St) : Except (String × St) St :=
  match a with
  | Subcommand.fetch opts => run_fetch ora opts st
  | Subcommand.build opts => run_build ora opts st

/-- The planned command sequence of an action: argument list and working
directory of each command, in order. -/
def plan : Subcommand → List (List String × String)
  | Subcommand.fetch opts =>
      [(["gclient", "root"], opts.dir),
       (["gclient", "config", "--spec", GCLIENT_SPEC], opts.dir),
       (syncArgs opts, opts.dir),
       (["git", "config", "diff.ignoreSubmodules", "dirty"], joinPath opts.dir ROOT),
       (["./build/install-build-deps.sh"], joinPath opts.dir ROOT),
       (["gclient", "runhooks"], opts.dir)]
  | Subcommand.build opts => [(buildArgs opts, joinPath opts.dir ROOT)]

/-- The state at startup: empty log, empty stdout, the caller's
environment, no commands invoked yet. -/
def initSt (env : Env) : St :=
  { entries := [], stdout := [], env := env, invoked := [] }

/-- The state a run ends in, whether it succeeded or raised. -/
def resSt : Except (String × St) St → St
  | Except.ok st => st
  | Except.error (_, st) => st

/-- The process exit code: `sys.exit(main())` exits 0 when `main` returns,
and the interpreter exits 1 on an uncaught exception. -/
def exitCode : Except (String × St) St → Nat
  | Except.ok _ => 0
  | Except.error _ => 1

/-- The indices, among the first `n` planned commands, at which the oracle
makes the command fail (in increasing order). -/
def failures (ora : Oracle) (n : Nat) : List Nat :=
  (List.range n).filter (fun i => (ora.result i).isSome)

/-- How many of the `n` planned commands get attempted: all of them when
none fails, and `k + 1` when the first failure is at index `k`. -/
def attemptedCount (ora : Oracle) (n : Nat) : Nat :=
  match failures ora n with
  | [] => n
  | k :: _ => k + 1

/-- The exact log-file entries a list of invocations produces, starting at
invocation index `i`: one descriptive line per command, then the
subprocess's own output, then the fixed failure marker if that command
failed. -/
def expectedEntries (ora : Oracle) : Nat → List Invocation → List Entry
  | _, [] => []
  | i, inv :: rest =>
      Entry.line (descLine inv.args inv.cwd) :: Entry.output (ora.out i) ::
        ((match ora.result i with
          | none => []
          | some _ => [Entry.line "Command failed."])
         ++ expectedEntries ora (i + 1) rest)

/-- Modelled from the source's `argparse.BooleanOptionalAction` flags
(`--history` / `--no-history` etc.): the last occurrence wins, and the
declared default is used when neither form occurs. -/
def parseFlag (pos neg : String) (dflt : Bool) (argv : List String) : Bool :=
  argv.foldl (fun acc a => if a = pos then true else if a = neg then false else acc) dflt

/-- The log file as the logger sees it: its name, its byte contents, and
the lines printed to standard output alongside. -/
structure LogFile where
  name : String
  contents : String
  stdout : List String
deriving Repr, DecidableEq

/-- `log(message, logfile)` at the byte level: append the message plus one
newline to the file, print the message to standard output. -/
def writeLog (message : String) (f : LogFile) : LogFile :=
  { f with contents := f.contents ++ message ++ "\n",
           stdout := f.stdout ++ [message] }

/-- POSIX open modes as used by `create_logfile`: `write` (`'w'`)
truncates an existing file, `append` would have kept its contents. -/
inductive OpenMode where
  | write
  | append
deriving Repr, DecidableEq

/-- The contents a just-opened file starts with, given the contents the
file had before (empty if it did not exist). -/
def openedContents : OpenMode → String → String
  | OpenMode.write, _ => ""
  | OpenMode.append, prior => prior

/-- `create_logfile(path)`: with no path, a fresh uniquely-named temp file
(name `genName`); with a path, that file opened with mode `'w+b'`
(truncating any prior contents `prior`). Either way the announcement line
is immediately written to the file and to standard output. -/
def create_logfile (path : Option String) (genName prior : String) : LogFile :=
  match path with
  | none =>
      writeLog ("Writing to log file \x27" ++ genName ++ "\x27")
        { name := genName, contents := "", stdout := [] }
  | some p =>
      writeLog ("Writing to log file \x27" ++ p ++ "\x27")
        { name := p, contents := openedContents OpenMode.write prior, stdout := [] }

/-- The lines `log` printed to standard output, recovered from the log
entries (every `line` entry was also printed; `output` chunks were not). -/
def lineTexts (es : List Entry) : List String :=
  es.filterMap (fun e => match e with
    | Entry.line s => some s
    | Entry.output _ => none)

/-- The six invocations a fully successful `run_fetch` issues, in order,
with the environment snapshot each one receives: the defaults are applied
after the fourth command and before the fifth. -/
def fetchInvocations (opts : FetchOptions) (env : Env) : List Invocation :=
  [⟨["gclient", "root"], opts.dir, env⟩,
   ⟨["gclient", "config", "--spec", GCLIENT_SPEC], opts.dir, env⟩,
   ⟨syncArgs opts, opts.dir, env⟩,
   ⟨["git", "config", "diff.ignoreSubmodules", "dirty"], joinPath opts.dir ROOT, env⟩,
   ⟨["./build/install-build-deps.sh"], joinPath opts.dir ROOT, applyEnvDefaults env⟩,
   ⟨["gclient", "runhooks"], opts.dir, applyEnvDefaults env⟩]

/-- The state of a fetch run that attempted the first `m` commands,
ending with environment `e`. -/
def fetchStAt (ora : Oracle) (opts : FetchOptions) (env : Env) (m : Nat) (e : Env) : St :=
  { entries := expectedEntries ora 0 ((fetchInvocations opts env).take m),
    stdout := lineTexts (expectedEntries ora 0 ((fetchInvocations opts env).take m)),
    env := e,
    invoked := (fetchInvocations opts env).take m }

theorem run_fetch_ok (ora : Oracle) (opts : FetchOptions) (env : Env)
    (h0 : ora.result 0 = none) (h1 : ora.result 1 = none) (h2 : ora.result 2 = none)
    (h3 : ora.result 3 = none) (h4 : ora.result 4 = none) (h5 : ora.result 5 = none) :
    run_fetch ora opts (initSt env) =
      Except.ok (fetchStAt ora opts env 6 (applyEnvDefaults env)) := by
  simp [run_fetch, run_command, log, initSt, fetchStAt, fetchInvocations, expectedEntries,
    lineTexts, h0, h1, h2, h3, h4, h5, bind, Except.bind]

theorem run_fetch_fail0 (ora : Oracle) (opts : FetchOptions) (env : Env) (e : String)
    (h0 : ora.result 0 = some e) :
    run_fetch ora opts (initSt env) = Except.error (e, fetchStAt ora opts env 1 env) := by
  simp [run_fetch, run_command, log, initSt, fetchStAt, fetchInvocations, expectedEntries,
    lineTexts, h0, bind, Except.bind]

theorem run_fetch_fail1 (ora : Oracle) (opts : FetchOptions) (env : Env) (e : String)
    (h0 : ora.result 0 = none) (h1 : ora.result 1 = some e) :
    run_fetch ora opts (initSt env) = Except.error (e, fetchStAt ora opts env 2 env) := by
  simp [run_fetch, run_command, log, initSt, fetchStAt, fetchInvocations, expectedEntries,
    lineTexts, h0, h1, bind, Except.bind]

theorem run_fetch_fail2 (ora : Oracle) (opts : FetchOptions) (env : Env) (e : String)
    (h0 : ora.result 0 = none) (h1 : ora.result 1 = none) (h2 : ora.result 2 = some e) :
    run_fetch ora opts (initSt env) = Except.error (e, fetchStAt ora opts env 3 env) := by
  simp [run_fetch, run_command, log, initSt, fetchStAt, fetchInvocations, expectedEntries,
    lineTexts, h0, h1, h2, bind, Except.bind]

theorem run_fetch_fail3 (ora : Oracle) (opts : FetchOptions) (env : Env) (e : String)
    (h0 : ora.result 0 = none) (h1 : ora.result 1 = none) (h2 : ora.result 2 = none)
    (h3 : ora.result 3 = some e) :
    run_fetch ora opts (initSt env) = Except.error (e, fetchStAt ora opts env 4 env) := by
  simp [run_fetch, run_command, log, initSt, fetchStAt, fetchInvocations, expectedEntries,
    lineTexts, h0, h1, h2, h3, bind, Except.bind]

theorem run_fetch_fail4 (ora : Oracle) (opts : FetchOptions) (env : Env) (e : String)
    (h0 : ora.result 0 = none) (h1 : ora.result 1 = none) (h2 : ora.result 2 = none)
    (h3 : ora.result 3 = none) (h4 : ora.result 4 = some e) :
    run_fetch ora opts (initSt env) =
      Except.error (e, fetchStAt ora opts env 5 (applyEnvDefaults env)) := by
  simp [run_fetch, run_command, log, initSt, fetchStAt, fetchInvocations, expectedEntries,
    lineTexts, h0, h1, h2, h3, h4, bind, Except.bind]

theorem run_fetch_fail5 (ora : Oracle) (opts : FetchOptions) (env : Env) (e : String)
    (h0 : ora.result 0 = none) (h1 : ora.result 1 = none) (h2 : ora.result 2 = none)
    (h3 : ora.result 3 = none) (h4 : ora.result 4 = none) (h5 : ora.result 5 = some e) :
    run_fetch ora opts (initSt env) =
      Except.error (e, fetchStAt ora opts env 6 (applyEnvDefaults env)) := by
  simp [run_fetch, run_command, log, initSt, fetchStAt, fetchInvocations, expectedEntries,
    lineTexts, h0, h1, h2, h3, h4, h5, bind, Except.bind]

/-- The single invocation `run_build` issues. -/
def buildInvocations (opts : BuildOptions) (env : Env) : List Invocation :=
  [⟨buildArgs opts, joinPath opts.dir ROOT, env⟩]

/-- The state of a build run after its one command was attempted. -/
def buildStAt (ora : Oracle) (opts : BuildOptions) (env : Env) : St :=
  { entries := expectedEntries ora 0 (buildInvocations opts env),
    stdout := lineTexts (expectedEntries ora 0 (buildInvocations opts env)),
    env := env,
    invoked := buildInvocations opts env }

theorem run_build_ok (ora : Oracle) (opts : BuildOptions) (env : Env)
    (h0 : ora.result 0 = none) :
    run_build ora opts (initSt env) = Except.ok (buildStAt ora opts env) := by
  simp [run_build, run_command, log, initSt, buildStAt, buildInvocations, expectedEntries,
    lineTexts, h0]

theorem run_build_fail (ora : Oracle) (opts : BuildOptions) (env : Env) (e : String)
    (h0 : ora.result 0 = some e) :
    run_build ora opts (initSt env) = Except.error (e, buildStAt ora opts env) := by
  simp [run_build, run_command, log, initSt, buildStAt, buildInvocations, expectedEntries,
    lineTexts, h0]

/-- C1: for every action (fetch or build), if any command in its sequence
fails, no subsequent command in that sequence is invoked (only the
commands up to and including the failing one appear in the invocation
list), the failure value is propagated unmodified to the caller, and the
process exits non-zero; the process exits zero exactly when every command
in the selected action's sequence succeeds. -/
theorem action_fail_fast_and_exit (ora : Oracle) (a : Subcommand) (env : Env) :
    (∀ e st, runAction ora a (initSt env) = Except.error (e, st) →
      ∃ k, k < (plan a).length ∧ ora.result k = some e ∧
        (∀ j, j < k → ora.result j = none) ∧
        st.invoked.length = k + 1 ∧
        exitCode (runAction ora a (initSt env)) ≠ 0)
    ∧ (exitCode (runAction ora a (initSt env)) = 0 ↔
        ∀ k, k < (plan a).length → ora.result k = none) := by
  cases a with
  | fetch opts =>
    simp only [runAction]
    rcases h0 : ora.result 0 with _ | e0
    · rcases h1 : ora.result 1 with _ | e1
      · rcases h2 : ora.result 2 with _ | e2
        · rcases h3 : ora.result 3 with _ | e3
          · rcases h4 : ora.result 4 with _ | e4
            · rcases h5 : ora.result 5 with _ | e5
              · rw [run_fetch_ok ora opts env h0 h1 h2 h3 h4 h5]
                refine ⟨by simp, ?_⟩
                simp only [exitCode, plan, List.length_cons, List.length_nil, true_iff]
                intro k hk
                interval_cases k <;> assumption
              · rw [run_fetch_fail5 ora opts env e5 h0 h1 h2 h3 h4 h5]
                constructor
                · intro e st heq
                  simp only [Except.error.injEq, Prod.mk.injEq] at heq
                  obtain ⟨he, hst⟩ := heq
                  subst he; subst hst
                  refine ⟨5, by simp [plan], h5, ?_, rfl, by simp [exitCode]⟩
                  intro j hj; interval_cases j <;> assumption
                · simp only [exitCode, plan, List.length_cons, List.length_nil]
                  constructor
                  · intro h; exact absurd h (by norm_num)
                  · intro hall; exact absurd (hall 5 (by norm_num)) (by simp [h5])
            · rw [run_fetch_fail4 ora opts env e4 h0 h1 h2 h3 h4]
              constructor
              · intro e st heq
                simp only [Except.error.injEq, Prod.mk.injEq] at heq
                obtain ⟨he, hst⟩ := heq
                subst he; subst hst
                refine ⟨4, by simp [plan], h4, ?_, rfl, by simp [exitCode]⟩
                intro j hj; interval_cases j <;> assumption
              · simp only [exitCode, plan, List.length_cons, List.length_nil]
                constructor
                · intro h; exact absurd h (by norm_num)
                · intro hall; exact absurd (hall 4 (by norm_num)) (by simp [h4])
          · rw [run_fetch_fail3 ora opts env e3 h0 h1 h2 h3]
            constructor
            · intro e st heq
              simp only [Except.error.injEq, Prod.mk.injEq] at heq
              obtain ⟨he, hst⟩ := heq
              subst he; subst hst
              refine ⟨3, by simp [plan], h3, ?_, rfl, by simp [exitCode]⟩
              intro j hj; interval_cases j <;> assumption
            · simp only [exitCode, plan, List.length_cons, List.length_nil]
              constructor
              · intro h; exact absurd h (by norm_num)
              · intro hall; exact absurd (hall 3 (by norm_num)) (by simp [h3])
        · rw [run_fetch_fail2 ora opts env e2 h0 h1 h2]
          constructor
          · intro e st heq
            simp only [Except.error.injEq, Prod.mk.injEq] at heq
            obtain ⟨he, hst⟩ := heq
            subst he; subst hst
            refine ⟨2, by simp [plan], h2, ?_, rfl, by simp [exitCode]⟩
            intro j hj; interval_cases j <;> assumption
          · simp only [exitCode, plan, List.length_cons, List.length_nil]
            constructor
            · intro h; exact absurd h (by norm_num)
            · intro hall; exact absurd (hall 2 (by norm_num)) (by simp [h2])
      · rw [run_fetch_fail1 ora opts env e1 h0 h1]
        constructor
        · intro e st heq
          simp only [Except.error.injEq, Prod.mk.injEq] at heq
          obtain ⟨he, hst⟩ := heq
          subst he; subst hst
          refine ⟨1, by simp [plan], h1, ?_, rfl, by simp [exitCode]⟩
          intro j hj; interval_cases j; assumption
        · simp only [exitCode, plan, List.length_cons, List.length_nil]
          constructor
          · intro h; exact absurd h (by norm_num)
          · intro hall; exact absurd (hall 1 (by norm_num)) (by simp [h1])
    · rw [run_fetch_fail0 ora opts env e0 h0]
      constructor
      · intro e st heq
        simp only [Except.error.injEq, Prod.mk.injEq] at heq
        obtain ⟨he, hst⟩ := heq
        subst he; subst hst
        refine ⟨0, by simp [plan], h0, ?_, rfl, by simp [exitCode]⟩
        intro j hj; omega
      · simp only [exitCode, plan, List.length_cons, List.length_nil]
        constructor
        · intro h; exact absurd h (by norm_num)
        · intro hall; exact absurd (hall 0 (by norm_num)) (by simp [h0])
  | build opts =>
    simp only [runAction]
    rcases h0 : ora.result 0 with _ | e0
    · rw [run_build_ok ora opts env h0]
      refine ⟨by simp, ?_⟩
      simp only [exitCode, plan, List.length_cons, List.length_nil, true_iff]
      intro k hk
      interval_cases k; assumption
    · rw [run_build_fail ora opts env e0 h0]
      constructor
      · intro e st heq
        simp only [Except.error.injEq, Prod.mk.injEq] at heq
        obtain ⟨he, hst⟩ := heq
        subst he; subst hst
        refine ⟨0, by simp [plan], h0, ?_, rfl, by simp [exitCode]⟩
        intro j hj; omega
      · simp only [exitCode, plan, List.length_cons, List.length_nil]
        constructor
        · intro h; exact absurd h (by norm_num)
        · intro hall; exact absurd (hall 0 (by norm_num)) (by simp [h0])

/-- C2: for every fetch `Options`, `run_fetch` issues the six external
commands in exactly the planned strict order with the planned working
directories (the invocation list issued so far is always a prefix of the
plan, and equals the whole plan when every command succeeds), and a later
command is attempted only if every earlier one succeeded. -/
theorem fetch_command_order (ora : Oracle) (opts : FetchOptions) (env : Env) :
    (∃ t, plan (Subcommand.fetch opts) =
        ((resSt (run_fetch ora opts (initSt env))).invoked.map
          (fun v => (v.args, v.cwd))) ++ t)
    ∧ ((∀ k, k < 6 → ora.result k = none) →
        (resSt (run_fetch ora opts (initSt env))).invoked.map (fun v => (v.args, v.cwd))
          = plan (Subcommand.fetch opts))
    ∧ (∀ i, i < (resSt (run_fetch ora opts (initSt env))).invoked.length →
        ∀ j, j < i → ora.result j = none) := by
  rcases h0 : ora.result 0 with _ | e0
  · rcases h1 : ora.result 1 with _ | e1
    · rcases h2 : ora.result 2 with _ | e2
      · rcases h3 : ora.result 3 with _ | e3
        · rcases h4 : ora.result 4 with _ | e4
          · rcases h5 : ora.result 5 with _ | e5
            · rw [run_fetch_ok ora opts env h0 h1 h2 h3 h4 h5]
              refine ⟨⟨[], by simp [plan, resSt, fetchStAt, fetchInvocations]⟩,
                fun _ => by simp [plan, resSt, fetchStAt, fetchInvocations], ?_⟩
              intro i hi j hji
              simp only [resSt, fetchStAt, fetchInvocations, List.length_take,
                List.length_cons, List.length_nil] at hi
              have hj : j < 5 := by omega
              interval_cases j <;> assumption
            · rw [run_fetch_fail5 ora opts env e5 h0 h1 h2 h3 h4 h5]
              refine ⟨⟨[], by simp [plan, resSt, fetchStAt, fetchInvocations]⟩,
                fun hall => absurd (hall 5 (by norm_num)) (by simp [h5]), ?_⟩
              intro i hi j hji
              simp only [resSt, fetchStAt, fetchInvocations, List.length_take,
                List.length_cons, List.length_nil] at hi
              have hj : j < 5 := by omega
              interval_cases j <;> assumption
          · rw [run_fetch_fail4 ora opts env e4 h0 h1 h2 h3 h4]
            refine ⟨⟨[(["gclient", "runhooks"], opts.dir)],
                by simp [plan, resSt, fetchStAt, fetchInvocations]⟩,
              fun hall => absurd (hall 4 (by norm_num)) (by simp [h4]), ?_⟩
            intro i hi j hji
            simp only [resSt, fetchStAt, fetchInvocations, List.length_take,
              List.length_cons, List.length_nil] at hi
            have hj : j < 4 := by omega
            interval_cases j <;> assumption
        · rw [run_fetch_fail3 ora opts env e3 h0 h1 h2 h3]
          refine ⟨⟨[(["./build/install-build-deps.sh"], joinPath opts.dir ROOT),
              (["gclient", "runhooks"], opts.dir)],
              by simp [plan, resSt, fetchStAt, fetchInvocations]⟩,
            fun hall => absurd (hall 3 (by norm_num)) (by simp [h3]), ?_⟩
          intro i hi j hji
          simp only [resSt, fetchStAt, fetchInvocations, List.length_take,
            List.length_cons, List.length_nil] at hi
          have hj : j < 3 := by omega
          interval_cases j <;> assumption
      · rw [run_fetch_fail2 ora opts env e2 h0 h1 h2]
        refine ⟨⟨[(["git", "config", "diff.ignoreSubmodules", "dirty"], joinPath opts.dir ROOT),
            (["./build/install-build-deps.sh"], joinPath opts.dir ROOT),
            (["gclient", "runhooks"], opts.dir)],
            by simp [plan, resSt, fetchStAt, fetchInvocations]⟩,
          fun hall => absurd (hall 2 (by norm_num)) (by simp [h2]), ?_⟩
        intro i hi j hji
        simp only [resSt, fetchStAt, fetchInvocations, List.length_take,
          List.length_cons, List.length_nil] at hi
        have hj : j < 2 := by omega
        interval_cases j <;> assumption
    · rw [run_fetch_fail1 ora opts env e1 h0 h1]
      refine ⟨⟨[(syncArgs opts, opts.dir),
          (["git", "config", "diff.ignoreSubmodules", "dirty"], joinPath opts.dir ROOT),
          (["./build/install-build-deps.sh"], joinPath opts.dir ROOT),
          (["gclient", "runhooks"], opts.dir)],
          by simp [plan, resSt, fetchStAt, fetchInvocations]⟩,
        fun hall => absurd (hall 1 (by norm_num)) (by simp [h1]), ?_⟩
      intro i hi j hji
      simp only [resSt, fetchStAt, fetchInvocations, List.length_take,
        List.length_cons, List.length_nil] at hi
      have hj : j < 1 := by omega
      interval_cases j
      assumption
  · rw [run_fetch_fail0 ora opts env e0 h0]
    refine ⟨⟨[(["gclient", "config", "--spec", GCLIENT_SPEC], opts.dir),
        (syncArgs opts, opts.dir),
        (["git", "config", "diff.ignoreSubmodules", "dirty"], joinPath opts.dir ROOT),
        (["./build/install-build-deps.sh"], joinPath opts.dir ROOT),
        (["gclient", "runhooks"], opts.dir)],
        by simp [plan, resSt, fetchStAt, fetchInvocations]⟩,
      fun hall => absurd (hall 0 (by norm_num)) (by simp [h0]), ?_⟩
    intro i hi j hji
    simp only [resSt, fetchStAt, fetchInvocations, List.length_take,
      List.length_cons, List.length_nil] at hi
    omega

theorem envLookup_append (env tail : Env) (k : String) :
    envLookup k (env ++ tail)
      = match envLookup k env with
        | some v => some v
        | none => envLookup k tail := by
  induction env with
  | nil => simp [envLookup]
  | cons kv rest ih =>
    obtain ⟨k', v'⟩ := kv
    by_cases hk : k' = k
    · simp [envLookup, hk]
    · simp [envLookup, hk, ih]

theorem setdefault_preserves_some (env : Env) (k k' v v' : String)
    (h : envLookup k' env = some v') :
    envLookup k' (setdefault env k v) = some v' := by
  unfold setdefault
  cases hm : envLookup k env
  · rw [envLookup_append, h]
  · exact h

theorem envLookup_foldl_setdefault (ds : List (String × String)) (env : Env) (k : String) :
    envLookup k (ds.foldl (fun e kv => setdefault e kv.1 kv.2) env)
      = match envLookup k env with
        | some v => some v
        | none => envLookup k ds := by
  induction ds generalizing env with
  | nil =>
    simp only [List.foldl_nil]
    cases h : envLookup k env <;> simp [envLookup]
  | cons kv rest ih =>
    simp only [List.foldl_cons]
    rw [ih]
    obtain ⟨k1, v1⟩ := kv
    rcases h : envLookup k env with _ | v
    · by_cases hk : k1 = k
      · subst hk
        unfold setdefault
        rw [h, envLookup_append, h]
        simp [envLookup]
      · have hsd : envLookup k (setdefault env k1 v1) = none := by
          unfold setdefault
          cases hm : envLookup k1 env
          · rw [envLookup_append, h]
            simp [envLookup, hk]
          · exact h
        rw [hsd]
        simp [envLookup, hk]
    · rw [setdefault_preserves_some env k1 k v1 v h]

theorem applyEnvDefaults_keeps (env : Env) (k v : String)
    (h : envLookup k env = some v) :
    envLookup k (applyEnvDefaults env) = some v := by
  unfold applyEnvDefaults
  rw [envLookup_foldl_setdefault, h]

theorem applyEnvDefaults_sets (env : Env) (kv : String × String)
    (hmem : kv ∈ envDefaults) (h : envLookup kv.1 env = none) :
    envLookup kv.1 (applyEnvDefaults env) = some kv.2 := by
  unfold applyEnvDefaults
  rw [envLookup_foldl_setdefault, h]
  fin_cases hmem <;> rfl

theorem range_six : List.range 6 = [0, 1, 2, 3, 4, 5] := by decide

theorem range_one : List.range 1 = [0] := by decide

/-- C7: for every run of an action, the log file consists, in order, of
exactly one block per command attempted — the descriptive line naming the
command and its effective working directory, the subprocess's own output,
and, exactly when that command failed, the fixed marker line
`Command failed.` immediately after it — and the number of commands
attempted is all of them, or stops right after the first failure, so
commands never attempted produce no lines. -/
theorem log_lines_per_command (ora : Oracle) (a : Subcommand) (env : Env) :
    (resSt (runAction ora a (initSt env))).entries
      = expectedEntries ora 0 (resSt (runAction ora a (initSt env))).invoked
    ∧ (resSt (runAction ora a (initSt env))).invoked.length
      = attemptedCount ora (plan a).length := by
  cases a with
  | fetch opts =>
    simp only [runAction]
    rcases h0 : ora.result 0 with _ | e0
    · rcases h1 : ora.result 1 with _ | e1
      · rcases h2 : ora.result 2 with _ | e2
        · rcases h3 : ora.result 3 with _ | e3
          · rcases h4 : ora.result 4 with _ | e4
            · rcases h5 : ora.result 5 with _ | e5
              · rw [run_fetch_ok ora opts env h0 h1 h2 h3 h4 h5]
                exact ⟨rfl, by
                  simp [resSt, fetchStAt, fetchInvocations, attemptedCount, failures,
                    plan, range_six, h0, h1, h2, h3, h4, h5]⟩
              · rw [run_fetch_fail5 ora opts env e5 h0 h1 h2 h3 h4 h5]
                exact ⟨rfl, by
                  simp [resSt, fetchStAt, fetchInvocations, attemptedCount, failures,
                    plan, range_six, h0, h1, h2, h3, h4, h5]⟩
            · rw [run_fetch_fail4 ora opts env e4 h0 h1 h2 h3 h4]
              exact ⟨rfl, by
                simp [resSt, fetchStAt, fetchInvocations, attemptedCount, failures,
                  plan, range_six, h0, h1, h2, h3, h4]⟩
          · rw [run_fetch_fail3 ora opts env e3 h0 h1 h2 h3]
            exact ⟨rfl, by
              simp [resSt, fetchStAt, fetchInvocations, attemptedCount, failures,
                plan, range_six, h0, h1, h2, h3]⟩
        · rw [run_fetch_fail2 ora opts env e2 h0 h1 h2]
          exact ⟨rfl, by
            simp [resSt, fetchStAt, fetchInvocations, attemptedCount, failures,
              plan, range_six, h0, h1, h2]⟩
      · rw [run_fetch_fail1 ora opts env e1 h0 h1]
        exact ⟨rfl, by
          simp [resSt, fetchStAt, fetchInvocations, attemptedCount, failures,
            plan, range_six, h0, h1]⟩
    · rw [run_fetch_fail0 ora opts env e0 h0]
      exact ⟨rfl, by
        simp [resSt, fetchStAt, fetchInvocations, attemptedCount, failures,
          plan, range_six, h0]⟩
  | build opts =>
    simp only [runAction]
    rcases h0 : ora.result 0 with _ | e0
    · rw [run_build_ok ora opts env h0]
      exact ⟨rfl, by
        simp [resSt, buildStAt, buildInvocations, attemptedCount, failures,
          plan, range_one, h0]⟩
    · rw [run_build_fail ora opts env e0 h0]
      exact ⟨rfl, by
        simp [resSt, buildStAt, buildInvocations, attemptedCount, failures,
          plan, range_one, h0]⟩

/-- C8: during fetch, each environment default is set only if that
variable is absent from the caller's environment (a variable the caller
set keeps its original value, a variable the caller did not set gets the
fixed default); the defaults are snapshotted into the subprocess
environment of the dependency-installation and runhooks commands (the
fifth and sixth invocations) but every earlier command's subprocess sees
the caller's environment unchanged, and the log file and printed output
of the run do not depend on the environment at all. -/
theorem fetch_env_defaults (ora : Oracle) (opts : FetchOptions) (env : Env) :
    ((∀ inv ∈ (resSt (run_fetch ora opts (initSt env))).invoked.take 4, inv.env = env)
      ∧ (∀ inv ∈ (resSt (run_fetch ora opts (initSt env))).invoked.drop 4,
          inv.env = applyEnvDefaults env))
    ∧ (∀ k v, envLookup k env = some v → envLookup k (applyEnvDefaults env) = some v)
    ∧ (∀ kv ∈ envDefaults, envLookup kv.1 env = none →
        envLookup kv.1 (applyEnvDefaults env) = some kv.2)
    ∧ (∀ env2 : Env,
        (resSt (run_fetch ora opts (initSt env))).entries
          = (resSt (run_fetch ora opts (initSt env2))).entries
        ∧ (resSt (run_fetch ora opts (initSt env))).stdout
          = (resSt (run_fetch ora opts (initSt env2))).stdout) := by
  refine ⟨?_, fun k v h => applyEnvDefaults_keeps env k v h,
    fun kv hmem h => applyEnvDefaults_sets env kv hmem h, ?_⟩
  · rcases h0 : ora.result 0 with _ | e0
    · rcases h1 : ora.result 1 with _ | e1
      · rcases h2 : ora.result 2 with _ | e2
        · rcases h3 : ora.result 3 with _ | e3
          · rcases h4 : ora.result 4 with _ | e4
            · rcases h5 : ora.result 5 with _ | e5
              · rw [run_fetch_ok ora opts env h0 h1 h2 h3 h4 h5]
                simp [resSt, fetchStAt, fetchInvocations]
              · rw [run_fetch_fail5 ora opts env e5 h0 h1 h2 h3 h4 h5]
                simp [resSt, fetchStAt, fetchInvocations]
            · rw [run_fetch_fail4 ora opts env e4 h0 h1 h2 h3 h4]
              simp [resSt, fetchStAt, fetchInvocations]
          · rw [run_fetch_fail3 ora opts env e3 h0 h1 h2 h3]
            simp [resSt, fetchStAt, fetchInvocations]
        · rw [run_fetch_fail2 ora opts env e2 h0 h1 h2]
          simp [resSt, fetchStAt, fetchInvocations]
      · rw [run_fetch_fail1 ora opts env e1 h0 h1]
        simp [resSt, fetchStAt, fetchInvocations]
    · rw [run_fetch_fail0 ora opts env e0 h0]
      simp [resSt, fetchStAt, fetchInvocations]
  · intro env2
    rcases h0 : ora.result 0 with _ | e0
    · rcases h1 : ora.result 1 with _ | e1
      · rcases h2 : ora.result 2 with _ | e2
        · rcases h3 : ora.result 3 with _ | e3
          · rcases h4 : ora.result 4 with _ | e4
            · rcases h5 : ora.result 5 with _ | e5
              · rw [run_fetch_ok ora opts env h0 h1 h2 h3 h4 h5,
                  run_fetch_ok ora opts env2 h0 h1 h2 h3 h4 h5]
                simp [resSt, fetchStAt, fetchInvocations, expectedEntries, lineTexts]
              · rw [run_fetch_fail5 ora opts env e5 h0 h1 h2 h3 h4 h5,
                  run_fetch_fail5 ora opts env2 e5 h0 h1 h2 h3 h4 h5]
                simp [resSt, fetchStAt, fetchInvocations, expectedEntries, lineTexts, h5]
            · rw [run_fetch_fail4 ora opts env e4 h0 h1 h2 h3 h4,
                run_fetch_fail4 ora opts env2 e4 h0 h1 h2 h3 h4]
              simp [resSt, fetchStAt, fetchInvocations, expectedEntries, lineTexts, h4]
          · rw [run_fetch_fail3 ora opts env e3 h0 h1 h2 h3,
              run_fetch_fail3 ora opts env2 e3 h0 h1 h2 h3]
            simp [resSt, fetchStAt, fetchInvocations, expectedEntries, lineTexts, h3]
        · rw [run_fetch_fail2 ora opts env e2 h0 h1 h2,
            run_fetch_fail2 ora opts env2 e2 h0 h1 h2]
          simp [resSt, fetchStAt, fetchInvocations, expectedEntries, lineTexts, h2]
      · rw [run_fetch_fail1 ora opts env e1 h0 h1,
          run_fetch_fail1 ora opts env2 e1 h0 h1]
        simp [resSt, fetchStAt, fetchInvocations, expectedEntries, lineTexts, h1]
    · rw [run_fetch_fail0 ora opts env e0 h0,
        run_fetch_fail0 ora opts env2 e0 h0]
      simp [resSt, fetchStAt, fetchInvocations, expectedEntries, lineTexts, h0]

theorem string_data_append (s t : String) : (s ++ t).data = s.data ++ t.data := by
  cases s; cases t; rfl

theorem string_append_assoc (a b c : String) : (a ++ b) ++ c = a ++ (b ++ c) := by
  cases a with
  | mk la =>
    cases b with
    | mk lb =>
      cases c with
      | mk lc =>
        show String.mk ((la ++ lb) ++ lc) = String.mk (la ++ (lb ++ lc))
        rw [List.append_assoc]

/-- The revision pair token built by `run_fetch` is the string `src@X`. -/
theorem srcAt_eq (x : String) : ROOT ++ "@" ++ x = "src@" ++ x := by
  cases x; rfl

/-- A string whose first four characters are not `src@` is not of the
form `src@X`. -/
theorem ne_srcAt_of_take (s x : String) (h : s.data.take 4 ≠ ['s', 'r', 'c', '@']) :
    s ≠ "src@" ++ x := by
  intro he
  apply h
  rw [he, string_data_append]
  rfl

/-- C3: with `--revision X`, the `gclient sync` argument list contains the
two tokens `--revision` and `src@X` adjacent and in that order; with no
revision, neither token (of either form) appears. -/
theorem sync_revision_tokens (opts : FetchOptions) :
    (∀ x, opts.revision = some x →
      ∃ l r, syncArgs opts = l ++ ["--revision", "src@" ++ x] ++ r)
    ∧ (opts.revision = none →
        "--revision" ∉ syncArgs opts ∧ ∀ x : String, ("src@" ++ x) ∉ syncArgs opts) := by
  constructor
  · intro x hx
    cases h : opts.history
    · exact ⟨["gclient", "sync", "--delete_unversioned_trees", "--nohooks", "--no-history"],
        [], by simp [syncArgs, hx, h, srcAt_eq]⟩
    · exact ⟨["gclient", "sync", "--delete_unversioned_trees", "--nohooks"],
        [], by simp [syncArgs, hx, h, srcAt_eq]⟩
  · intro hx
    constructor
    · cases h : opts.history <;> simp [syncArgs, hx, h]
    · intro x hmem
      cases h : opts.history
      · have hs : syncArgs opts
            = ["gclient", "sync", "--delete_unversioned_trees", "--nohooks",
               "--no-history"] := by
          simp [syncArgs, hx, h]
        rw [hs] at hmem
        simp only [List.mem_cons, List.not_mem_nil, or_false] at hmem
        rcases hmem with h1 | h1 | h1 | h1 | h1 <;>
          exact ne_srcAt_of_take _ x (by decide) h1.symm
      · have hs : syncArgs opts
            = ["gclient", "sync", "--delete_unversioned_trees", "--nohooks"] := by
          simp [syncArgs, hx, h]
        rw [hs] at hmem
        simp only [List.mem_cons, List.not_mem_nil, or_false] at hmem
        rcases hmem with h1 | h1 | h1 | h1 <;>
          exact ne_srcAt_of_take _ x (by decide) h1.symm

theorem parseFlag_no_pos (pos neg : String) (argv : List String) (h : pos ∉ argv) :
    parseFlag pos neg false argv = false := by
  induction argv with
  | nil => rfl
  | cons a t ih =>
    simp only [List.mem_cons, not_or] at h
    obtain ⟨h1, h2⟩ := h
    simp only [parseFlag, List.foldl_cons]
    have hstep : (if a = pos then true else if a = neg then false else false) = false := by
      rw [if_neg (fun he => h1 he.symm)]
      split <;> rfl
    rw [hstep]
    exact ih h2

theorem parseFlag_no_neg (pos neg : String) (argv : List String) (h : neg ∉ argv) :
    parseFlag pos neg true argv = true := by
  induction argv with
  | nil => rfl
  | cons a t ih =>
    simp only [List.mem_cons, not_or] at h
    obtain ⟨h1, h2⟩ := h
    simp only [parseFlag, List.foldl_cons]
    have hstep : (if a = pos then true else if a = neg then false else true) = true := by
      by_cases hp : a = pos
      · rw [if_pos hp]
      · rw [if_neg hp, if_neg (fun he => h1 he.symm)]
    rw [hstep]
    exact ih h2

/-- C4: the `gclient sync` argument list contains the literal token
`--no-history` exactly when the history flag is false, and the history
flag defaults to false when `--history` is absent from the subcommand's
arguments. -/
theorem sync_no_history_token (opts : FetchOptions) (argv : List String) :
    ("--no-history" ∈ syncArgs opts ↔ opts.history = false)
    ∧ ("--history" ∉ argv → parseFlag "--history" "--no-history" false argv = false) := by
  constructor
  · cases h : opts.history
    · simp [syncArgs, h]
    · rcases hr : opts.revision with _ | r
      · simp [syncArgs, h, hr]
      · have hne : "--no-history" ≠ ROOT ++ "@" ++ r := by
          rw [srcAt_eq]
          exact ne_srcAt_of_take _ r (by decide)
        simp [syncArgs, h, hr, hne]
  · exact parseFlag_no_pos "--history" "--no-history" argv

/-- C5: the build command's argument list contains
`--extra-gn-args=is_official_build=true` exactly when the official flag is
true; the official flag defaults to true when `--no-official` is absent;
and invoking build with the default flags issues exactly one subprocess
invocation — the build script with that token present (and no unstripped
token). -/
theorem build_official_token (opts : BuildOptions) (argv : List String)
    (ora : Oracle) (env : Env) (d : String) :
    ("--extra-gn-args=is_official_build=true" ∈ buildArgs opts ↔ opts.official = true)
    ∧ ("--no-official" ∉ argv → parseFlag "--official" "--no-official" true argv = true)
    ∧ ((resSt (run_build ora ⟨d, true, false⟩ (initSt env))).invoked.map
          (fun v => (v.args, v.cwd))
        = [(["./tools_webrtc/android/build_aar.py",
             "--extra-gn-args=is_official_build=true"], joinPath d ROOT)]) := by
  refine ⟨?_, parseFlag_no_neg "--official" "--no-official" argv, ?_⟩
  · cases ho : opts.official <;> cases hu : opts.unstripped <;> simp [buildArgs, ho, hu]
  · rcases h0 : ora.result 0 with _ | e0
    · rw [run_build_ok ora ⟨d, true, false⟩ env h0]
      simp [resSt, buildStAt, buildInvocations, buildArgs]
    · rw [run_build_fail ora ⟨d, true, false⟩ env e0 h0]
      simp [resSt, buildStAt, buildInvocations, buildArgs]

/-- C6: the build command's argument list contains `--use-unstripped-libs`
exactly when the unstripped flag is true, and the unstripped flag defaults
to false when `--unstripped` is absent from the subcommand's arguments. -/
theorem build_unstripped_token (opts : BuildOptions) (argv : List String) :
    ("--use-unstripped-libs" ∈ buildArgs opts ↔ opts.unstripped = true)
    ∧ ("--unstripped" ∉ argv →
        parseFlag "--unstripped" "--no-unstripped" false argv = false) := by
  refine ⟨?_, parseFlag_no_pos "--unstripped" "--no-unstripped" argv⟩
  cases ho : opts.official <;> cases hu : opts.unstripped <;> simp [buildArgs, ho, hu]

/-- C9: `log` appends exactly the message followed by one newline to the
log file and prints the message to standard output; and `create_logfile`
immediately writes a line announcing the chosen log file name to both the
log file and standard output. -/
theorem logger_writes (m : String) (f : LogFile) (path : Option String)
    (genName prior : String) :
    ((writeLog m f).contents = f.contents ++ m ++ "\n"
      ∧ (writeLog m f).stdout = f.stdout ++ [m])
    ∧ ((create_logfile path genName prior).contents
        = "Writing to log file \x27" ++ (create_logfile path genName prior).name
            ++ "\x27" ++ "\n"
      ∧ (create_logfile path genName prior).stdout
        = ["Writing to log file \x27" ++ (create_logfile path genName prior).name
            ++ "\x27"]) := by
  refine ⟨⟨rfl, rfl⟩, ?_⟩
  cases path with
  | none => cases genName; exact ⟨rfl, rfl⟩
  | some p => cases p; exact ⟨rfl, rfl⟩

/-- C10: when an explicit `--logfile` path is supplied and a file already
exists at that path, `create_logfile` truncates it (the file is opened in
write mode, not append mode): whatever the prior contents were, afterwards
the file holds only the announcement line, and the result does not depend
on the prior contents at all. -/
theorem logfile_truncated (p genName prior : String) :
    (create_logfile (some p) genName prior).contents
      = "Writing to log file \x27" ++ p ++ "\x27" ++ "\n"
    ∧ openedContents OpenMode.write prior = ""
    ∧ (∀ prior2, create_logfile (some p) genName prior
        = create_logfile (some p) genName prior2) := by
  refine ⟨?_, rfl, fun _ => rfl⟩
  cases p; rfl

/-- An oracle under which every command succeeds and writes no output. -/
def oraOk : Oracle := ⟨fun _ => none, fun _ => ""⟩

theorem action_fail_fast_and_exit_witness :
    exitCode (runAction oraOk (Subcommand.fetch ⟨"/w", none, false⟩) (initSt [])) = 0 :=
  (action_fail_fast_and_exit oraOk (Subcommand.fetch ⟨"/w", none, false⟩) []).2.mpr
    (fun _ _ => rfl)

theorem fetch_command_order_witness :
    (resSt (run_fetch oraOk ⟨"/w", none, false⟩ (initSt []))).invoked.map
        (fun v => (v.args, v.cwd))
      = plan (Subcommand.fetch ⟨"/w", none, false⟩) :=
  (fetch_command_order oraOk ⟨"/w", none, false⟩ []).2.1 (fun _ _ => rfl)

theorem sync_revision_tokens_witness :
    ∃ l r, syncArgs ⟨"/w", some "branch-heads/6045", false⟩
      = l ++ ["--revision", "src@" ++ "branch-heads/6045"] ++ r :=
  (sync_revision_tokens ⟨"/w", some "branch-heads/6045", false⟩).1 "branch-heads/6045" rfl

theorem sync_no_history_token_witness :
    parseFlag "--history" "--no-history" false ["--revision", "x"] = false :=
  (sync_no_history_token ⟨"/w", none, false⟩ ["--revision", "x"]).2 (by decide)

theorem build_official_token_witness :
    parseFlag "--official" "--no-official" true ["--unstripped"] = true :=
  (build_official_token ⟨"/w", true, false⟩ ["--unstripped"] oraOk [] "/w").2.1 (by decide)

theorem build_unstripped_token_witness :
    parseFlag "--unstripped" "--no-unstripped" false ["--official"] = false :=
  (build_unstripped_token ⟨"/w", false, false⟩ ["--official"]).2 (by decide)

theorem fetch_env_defaults_witness :
    envLookup "TZ" (applyEnvDefaults [("TZ", "UTC+3")]) = some "UTC+3" :=
  (fetch_env_defaults oraOk ⟨"/w", none, false⟩ [("TZ", "UTC+3")]).2.1 "TZ" "UTC+3"
    (by simp [envLookup])
